import Mathlib

/-!
Verification of the API-client layer of the trio-gitter-bot repository
(file cron/gitter_api.py): rate-limit bookkeeping, response deciphering,
typed error classification, and the conditional-request cache.

The embedding is shallow: Python objects become Lean structures, the
ambient clock (datetime.now) and the transport response become explicit
parameters, and raised exceptions become the error side of Except.
-/

/-- JSON values as decoded by json.loads: objects are association lists of
string keys, numbers are modelled as integers (the bodies exchanged by this
bot carry only integral numbers). Python None and JSON null share the
constructor null. -/
inductive Json where
  | null : Json
  | bool (b : Bool) : Json
  | num (n : Int) : Json
  | str (s : String) : Json
  | arr (xs : List Json) : Json
  | obj (fields : List (String × Json)) : Json

/-- Python truthiness of a decoded JSON value: None, False, 0, empty string,
empty list and empty dict are falsy, everything else truthy. -/
def Json.truthy : Json → Bool
  | .null => false
  | .bool b => b
  | .num n => n != 0
  | .str s => s != ""
  | .arr xs => !xs.isEmpty
  | .obj fs => !fs.isEmpty

mutual

/-- Python repr of a decoded JSON value (as used by repr(e["field"]) at
gitter_api.py line 228). Strings are wrapped in single quotes; escaping of
special characters inside strings is not modelled (the field names used by
the API contain none). -/
def Json.pyRepr : Json → String
  | .null => "None"
  | .bool true => "True"
  | .bool false => "False"
  | .num n => toString n
  | .str s => "\x27" ++ s ++ "\x27"
  | .arr xs => "[" ++ Json.pyReprElems xs ++ "]"
  | .obj fs => "\x7b" ++ Json.pyReprPairs fs ++ "\x7d"

/-- Comma-joined reprs of list elements. -/
def Json.pyReprElems : List Json → String
  | [] => ""
  | [x] => Json.pyRepr x
  | x :: y :: xs => Json.pyRepr x ++ ", " ++ Json.pyReprElems (y :: xs)

/-- Comma-joined reprs of dict items. -/
def Json.pyReprPairs : List (String × Json) → String
  | [] => ""
  | [(k, v)] => "\x27" ++ k ++ "\x27: " ++ Json.pyRepr v
  | (k, v) :: p :: xs =>
      "\x27" ++ k ++ "\x27: " ++ Json.pyRepr v ++ ", " ++ Json.pyReprPairs (p :: xs)

end

/-- Python str() of a decoded JSON value, as substituted by an f-string:
strings are inserted verbatim, containers via their repr. -/
def Json.pyStr : Json → String
  | .str s => s
  | j => j.pyRepr

/-- Whitespace skipping of the JSON reader. -/
def skipWs : List Char → List Char
  | [] => []
  | c :: cs =>
      if c = ' ' ∨ c = '\t' ∨ c = '\n' ∨ c = '\r' then skipWs cs else c :: cs

/-- Characters of a JSON string literal up to the closing quote. Escape
sequences are not modelled (none occur in the bodies this bot exchanges):
a backslash makes the parse fail. -/
def takeStringChars : List Char → Option (List Char × List Char)
  | [] => none
  | c :: cs =>
      if c = '"' then some ([], cs)
      else if c = '\\' then none
      else (takeStringChars cs).map (fun p => (c :: p.1, p.2))

/-- Leading decimal digits folded into a Nat, with the rest of the input. -/
def takeDigits : List Char → Option (Nat × List Char) :=
  fun cs =>
    let ds := cs.takeWhile Char.isDigit
    let rest := cs.dropWhile Char.isDigit
    if ds.isEmpty then none
    else some (ds.foldl (fun a c => a * 10 + (c.toNat - '0'.toNat)) 0, rest)

/-- Integral JSON number, with optional leading minus sign. Fractional and
exponent forms are not modelled (the bodies this bot exchanges carry only
integers). -/
def parseNumber : List Char → Option (Json × List Char)
  | '-' :: rest => (takeDigits rest).map (fun p => (Json.num (-(p.1 : Int)), p.2))
  | cs => (takeDigits cs).map (fun p => (Json.num (p.1 : Int), p.2))

mutual

/-- Fuel-indexed recursive-descent JSON value reader modelling json.loads. -/
def parseValue : Nat → List Char → Option (Json × List Char)
  | 0, _ => none
  | Nat.succ fuel, cs =>
      match skipWs cs with
      | [] => none
      | c :: rest =>
          if c = 'n' then
            match rest with
            | 'u' :: 'l' :: 'l' :: r => some (Json.null, r)
            | _ => none
          else if c = 't' then
            match rest with
            | 'r' :: 'u' :: 'e' :: r => some (Json.bool true, r)
            | _ => none
          else if c = 'f' then
            match rest with
            | 'a' :: 'l' :: 's' :: 'e' :: r => some (Json.bool false, r)
            | _ => none
          else if c = '"' then
            (takeStringChars rest).map (fun p => (Json.str (String.mk p.1), p.2))
          else if c = '[' then
            match skipWs rest with
            | ']' :: r => some (Json.arr [], r)
            | r2 => (parseElems fuel r2).map (fun p => (Json.arr p.1, p.2))
          else if c = '\x7b' then
            match skipWs rest with
            | '\x7d' :: r => some (Json.obj [], r)
            | r2 => (parseMembers fuel r2).map (fun p => (Json.obj p.1, p.2))
          else if c = '-' ∨ c.isDigit then parseNumber (c :: rest)
          else none

/-- Comma-separated array elements up to the closing bracket. -/
def parseElems : Nat → List Char → Option (List Json × List Char)
  | 0, _ => none
  | Nat.succ fuel, cs =>
      match parseValue fuel cs with
      | none => none
      | some (v, r) =>
          match skipWs r with
          | ',' :: r2 => (parseElems fuel r2).map (fun p => (v :: p.1, p.2))
          | ']' :: r2 => some ([v], r2)
          | _ => none

/-- Comma-separated object members up to the closing brace. -/
def parseMembers : Nat → List Char → Option (List (String × Json) × List Char)
  | 0, _ => none
  | Nat.succ fuel, cs =>
      match skipWs cs with
      | '"' :: r =>
          match takeStringChars r with
          | none => none
          | some (kcs, r2) =>
              match skipWs r2 with
              | ':' :: r3 =>
                  match parseValue fuel r3 with
                  | none => none
                  | some (v, r4) =>
                      match skipWs r4 with
                      | ',' :: r5 =>
                          (parseMembers fuel r5).map
                            (fun p => ((String.mk kcs, v) :: p.1, p.2))
                      | '\x7d' :: r5 => some ([(String.mk kcs, v)], r5)
                      | _ => none
              | _ => none
      | _ => none

end

/-- Model of json.loads on the UTF-8-decoded body: parse one JSON value and
require only whitespace after it; none models a raised JSONDecodeError.
The modelled grammar covers the subset this bot exchanges (no escape
sequences inside strings, integral numbers only). -/
def json_loads (s : String) : Option Json :=
  match parseValue (s.length + 1) s.data with
  | some (v, r) => if skipWs r = [] then some v else none
  | none => none

mutual

/-- Model of json.dumps with the default separators, over the modelled JSON
subset (no escaping inside strings). -/
def json_dumps : Json → String
  | .null => "null"
  | .bool true => "true"
  | .bool false => "false"
  | .num n => toString n
  | .str s => "\"" ++ s ++ "\""
  | .arr xs => "[" ++ dumpsElems xs ++ "]"
  | .obj fs => "\x7b" ++ dumpsPairs fs ++ "\x7d"

/-- Comma-joined dumps of list elements. -/
def dumpsElems : List Json → String
  | [] => ""
  | [x] => json_dumps x
  | x :: y :: xs => json_dumps x ++ ", " ++ dumpsElems (y :: xs)

/-- Comma-joined dumps of dict items. -/
def dumpsPairs : List (String × Json) → String
  | [] => ""
  | [(k, v)] => "\"" ++ k ++ "\": " ++ json_dumps v
  | (k, v) :: p :: xs =>
      "\"" ++ k ++ "\": " ++ json_dumps v ++ ", " ++ dumpsPairs (p :: xs)

end

/-- Model of Python int(str): optional surrounding whitespace, optional
sign, then decimal digits; none models a raised ValueError. Underscore
digit separators are not modelled. -/
def pyInt (s : String) : Option Int :=
  let cs := (skipWs s.data).reverse
  let cs := (skipWs cs).reverse
  match cs with
  | '-' :: rest =>
      match takeDigits rest with
      | some (n, []) => some (-(n : Int))
      | _ => none
  | '+' :: rest =>
      match takeDigits rest with
      | some (n, []) => some ((n : Int))
      | _ => none
  | _ =>
      match takeDigits cs with
      | some (n, []) => some ((n : Int))
      | _ => none

/-- Model of Python float(str) as an exact rational: optional surrounding
whitespace, optional sign, digits with an optional fractional part; none
models a raised ValueError. Exponent forms and the inf/nan spellings are
not modelled (the reset header carries a plain epoch number). -/
def pyFloat (s : String) : Option ℚ :=
  let cs := (skipWs s.data).reverse
  let cs := (skipWs cs).reverse
  let core : List Char → Option ℚ := fun cs =>
    match takeDigits cs with
    | some (n, []) => some ((n : ℚ))
    | some (n, '.' :: fracCs) =>
        match takeDigits fracCs with
        | some (f, []) =>
            some ((n : ℚ) + (f : ℚ) / ((10 : ℚ) ^ fracCs.length))
        | _ => none
    | _ => none
  match cs with
  | '-' :: rest => (core rest).map (fun q => -q)
  | '+' :: rest => core rest
  | _ => core cs

/-- ASCII lowercasing of one character. -/
def lowerChar (c : Char) : Char :=
  if 65 ≤ c.toNat ∧ c.toNat ≤ 90 then Char.ofNat (c.toNat + 32) else c

/-- ASCII lowercasing of a key string. -/
def lowerKey (s : String) : String := String.mk (s.data.map lowerChar)

/-- Case-insensitive header lookup, modelling the case-insensitive header
mapping of the transport (keys are compared lowercased; the client always
queries with lowercase keys). -/
def lookupH (headers : List (String × String)) (key : String) : Option String :=
  (headers.find? (fun kv => lowerKey kv.1 == key)).map (fun kv => kv.2)

/-- Set a request header, overwriting an existing entry for the key. -/
def setH (headers : List (String × String)) (k v : String) : List (String × String) :=
  match headers with
  | [] => [(k, v)]
  | (k0, v0) :: rest => if k0 == k then (k, v) :: rest else (k0, v0) :: setH rest k v

/-- Dict-entry lookup of an association list (Python dict indexing; a miss
models a raised KeyError). -/
def getA {α : Type} : List (String × α) → String → Option α
  | [], _ => none
  | (k0, v0) :: rest, k => if k0 == k then some v0 else getA rest k

/-- Dict-entry assignment of an association list, overwriting an existing
entry for the key. -/
def setA {α : Type} : List (String × α) → String → α → List (String × α)
  | [], k, v => [(k, v)]
  | (k0, v0) :: rest, k, v =>
      if k0 == k then (k, v) :: rest else (k0, v0) :: setA rest k v

/-- Dict key lookup on decoded JSON object fields. -/
def getKey (fs : List (String × Json)) (k : String) : Option Json :=
  (fs.find? (fun p => p.1 == k)).map (fun p => p.2)

/-- Rate-limit snapshot (class RateLimit, gitter_api.py lines 69-109).
The constructor receives reset_epoch in milliseconds since the UTC epoch
and stores reset_datetime = reset_epoch/1000 as an absolute UTC instant;
times are modelled as exact rationals counting seconds since the epoch. -/
structure RateLimit where
  limit : Int
  remaining : Int
  reset_datetime : ℚ
deriving DecidableEq

/-- Truthiness of a RateLimit (RateLimit.bool, gitter_api.py lines 82-88):
true if requests are remaining or the reset datetime has passed; the
ambient clock datetime.now is an explicit parameter. -/
def RateLimit.toBool (rl : RateLimit) (now : ℚ) : Bool :=
  if rl.remaining > 0 then true else decide (now > rl.reset_datetime)

/-- Exceptions the client can raise. The first five model Python built-in
exceptions escaping from decipher_response or RateLimit.from_http; the
rest model the GitterException hierarchy of gitter_api.py. Messages are
carried as the raised Python value (Json.null for None); the generic
constructors keep the extracted message only when it was truthy, matching
the args tuple built at gitter_api.py lines 238-242. -/
inductive Exc where
  | jsonDecodeError : Exc
  | valueError : Exc
  | keyError : Exc
  | typeError : Exc
  | attributeError : Exc
  | redirectionException (status : Nat) (message : Option Json) : Exc
  | badRequest (status : Nat) (message : Option Json) : Exc
  | rateLimitExceeded (rate_limit : RateLimit) (message : Json) : Exc
  | invalidField (errors : Json) (message : Json) : Exc
  | gitterBroken (status : Nat) (message : Option Json) : Exc
  | httpException (status : Nat) (message : Option Json) : Exc

/-- Model of RateLimit.from_http (gitter_api.py lines 94-109). Only
KeyError is caught, so an absent header yields ok none while a header
present with a non-numeric value propagates ValueError; lookups and
conversions happen in source order (limit, remaining, reset). -/
def RateLimit.from_http (headers : List (String × String)) :
    Except Exc (Option RateLimit) :=
  match lookupH headers "x-ratelimit-limit" with
  | none => Except.ok none
  | some ls =>
      match pyInt ls with
      | none => Except.error Exc.valueError
      | some limit =>
          match lookupH headers "x-ratelimit-remaining" with
          | none => Except.ok none
          | some rs =>
              match pyInt rs with
              | none => Except.error Exc.valueError
              | some remaining =>
                  match lookupH headers "x-ratelimit-reset" with
                  | none => Except.ok none
                  | some es =>
                      match pyFloat es with
                      | none => Except.error Exc.valueError
                      | some reset_epoch =>
                          Except.ok (some ⟨limit, remaining, reset_epoch / 1000⟩)

/-- Membership in Python http.HTTPStatus: the enum conversion at
gitter_api.py line 237 raises ValueError for a status outside this set. -/
def isHTTPStatus (status : Nat) : Bool :=
  [100, 101, 102, 103, 200, 201, 202, 203, 204, 205, 206, 207, 208, 226,
   300, 301, 302, 303, 304, 305, 307, 308,
   400, 401, 402, 403, 404, 405, 406, 407, 408, 409, 410, 411, 412, 413,
   414, 415, 416, 417, 418, 421, 422, 423, 424, 425, 426, 428, 429, 431, 451,
   500, 501, 502, 503, 504, 505, 506, 507, 508, 510, 511].contains status

/-- Message extraction of gitter_api.py lines 212-215: data["message"]
with TypeError and KeyError caught, leaving None. A non-dict body or an
absent key yields Json.null (Python None). -/
def pyGetMessage : Json → Json
  | .obj fs => (getKey fs "message").getD Json.null
  | _ => Json.null

/-- Repr of one item of the 422 errors list (repr(e["field"]),
gitter_api.py line 228): indexing a non-dict raises TypeError, a missing
field key raises KeyError. -/
def fieldRepr : Json → Except Exc String
  | .obj fs =>
      match getKey fs "field" with
      | some v => Except.ok (Json.pyRepr v)
      | none => Except.error Exc.keyError
  | _ => Except.error Exc.typeError

/-- Comma-join of the quoted field names of the 422 errors list
(", ".join(...), gitter_api.py line 228); the first failing item
propagates its exception. -/
def joinFields : List Json → Except Exc String
  | [] => Except.ok ""
  | [e] => fieldRepr e
  | e :: f :: rest =>
      match fieldRepr e with
      | Except.error x => Except.error x
      | Except.ok s =>
          match joinFields (f :: rest) with
          | Except.error x => Except.error x
          | Except.ok s2 => Except.ok (s ++ ", " ++ s2)

/-- Common raise of gitter_api.py lines 237-243: convert the status to the
HTTPStatus enum (ValueError outside the enum), then raise the chosen
exception type with the message kept only when truthy. -/
def raiseHTTP (mk : Nat → Option Json → Exc) (status : Nat) (message : Json) :
    Except Exc (Json × Option RateLimit) :=
  if isHTTPStatus status then
    Except.error (mk status (if message.truthy then some message else none))
  else Except.error Exc.valueError

/-- Model of GitterAPI.decipher_response (gitter_api.py lines 185-243).
The body is the UTF-8-decoded response payload; the ambient clock used by
the 403 truthiness test is the explicit now parameter. A raised exception
is the error side of Except. -/
def decipher_response (status_code : Nat) (headers : List (String × String))
    (body : String) (now : ℚ) : Except Exc (Json × Option RateLimit) :=
  match json_loads body with
  | none => Except.error Exc.jsonDecodeError
  | some data =>
    if status_code == 200 || status_code == 201 || status_code == 204 then
      match RateLimit.from_http headers with
      | Except.error e => Except.error e
      | Except.ok rl => Except.ok (data, rl)
    else
      let message := pyGetMessage data
      if 500 ≤ status_code then
        raiseHTTP Exc.gitterBroken status_code message
      else if 400 ≤ status_code then
        if status_code == 403 then
          match RateLimit.from_http headers with
          | Except.error e => Except.error e
          | Except.ok none => raiseHTTP Exc.badRequest status_code message
          | Except.ok (some rate_limit) =>
              if rate_limit.toBool now && rate_limit.remaining == 0 then
                Except.error (Exc.rateLimitExceeded rate_limit message)
              else raiseHTTP Exc.badRequest status_code message
        else if status_code == 422 then
          match data with
          | Json.obj fs =>
              let errors := (getKey fs "errors").getD Json.null
              if errors.truthy then
                match errors with
                | Json.arr es =>
                    match joinFields es with
                    | Except.error e => Except.error e
                    | Except.ok fieldsStr =>
                        Except.error (Exc.invalidField errors
                          (Json.str (message.pyStr ++ " for " ++ fieldsStr)))
                | _ => Except.error Exc.typeError
              else
                match getKey fs "message" with
                | none => Except.error Exc.keyError
                | some m => Except.error (Exc.invalidField errors m)
          | _ => Except.error Exc.attributeError
        else raiseHTTP Exc.badRequest status_code message
      else if 300 ≤ status_code then
        raiseHTTP Exc.redirectionException status_code message
      else
        raiseHTTP Exc.httpException status_code message

/-- One cache value: (etag, last-modified, decoded body), as stored by
GitterAPI through its cache collaborator (gitter_api.py lines 157, 181). -/
def CacheEntry : Type := Option String × Option String × Json

/-- Mutable state of a GitterAPI instance: the configuration strings, the
stored rate-limit snapshot (None until a response supplies one) and the
optional cache collaborator, modelled as an association list keyed by the
resolved URL (none models cache=None). -/
structure GitterAPI where
  requester : String
  oauth_token : String
  rate_limit : Option RateLimit
  cache : Option (List (String × CacheEntry))

/-- Base request headers (GitterAPI.create_request_headers,
gitter_api.py lines 132-136). -/
def create_request_headers (c : GitterAPI) : List (String × String) :=
  [("user-agent", c.requester),
   ("authorization", "bearer " ++ c.oauth_token),
   ("accept", "application/json")]

/-- Check of a character-list prefix, used to recognise absolute URLs. -/
def hasPrefixChars : List Char → List Char → Bool
  | [], _ => true
  | _ :: _, [] => false
  | a :: as, b :: bs => a == b && hasPrefixChars as bs

/-- Model of GitterAPI.format_url (gitter_api.py lines 139-140):
urllib.parse.urljoin against the fixed domain, restricted to the two cases
this client exercises (an already absolute URL, or a path joined onto the
domain). -/
def format_url (url : String) : String :=
  if hasPrefixChars "http://".data url.data || hasPrefixChars "https://".data url.data
  then url
  else "https://api.gitter.im" ++ url

/-- Request body argument of _make_request: b"" (the no-payload sentinel
checked at gitter_api.py line 151) or a JSON payload. -/
inductive RequestData where
  | empty : RequestData
  | payload (j : Json) : RequestData

/-- Speculative quota pre-decrement (gitter_api.py lines 171-172): applied
in place to the stored snapshot, if any, before the transport call. -/
def preSend : Option RateLimit → Option RateLimit
  | none => none
  | some rl => some { rl with remaining := rl.remaining - 1 }

/-- Request state at the moment the transport is invoked: the resolved
URL, the headers and body to send, whether the request is cacheable, and
the cached fallback body when the cache lookup hit. -/
structure PreparedRequest where
  filled_url : String
  request_headers : List (String × String)
  body : String
  cacheable : Bool
  cachedBody : Option Json

/-- First half of GitterAPI._make_request (gitter_api.py lines 147-172),
up to and including the speculative pre-decrement: everything that happens
before the transport call. Returns the prepared request together with the
client state the transport call observes. -/
def prepare (c : GitterAPI) (method url : String) (data : RequestData) :
    PreparedRequest × GitterAPI :=
  let filled_url := format_url url
  let h0 := create_request_headers c
  let c1 : GitterAPI := { c with rate_limit := preSend c.rate_limit }
  match data with
  | RequestData.empty =>
      let h1 := setH h0 "content-length" "0"
      if method == "GET" && c.cache.isSome then
        match getA (c.cache.getD []) filled_url with
        | none => (⟨filled_url, h1, "", true, none⟩, c1)
        | some (etag, last_modified, cachedData) =>
            let h2 := match etag with
              | some e => setH h1 "if-none-match" e
              | none => h1
            let h3 := match last_modified with
              | some l => setH h2 "if-modified-since" l
              | none => h2
            (⟨filled_url, h3, "", true, some cachedData⟩, c1)
      else (⟨filled_url, h1, "", false, none⟩, c1)
  | RequestData.payload j =>
      let body := json_dumps j
      let h1 := setH h0 "content-type" "application/json; charset=utf-8"
      let h2 := setH h1 "content-length" (toString body.utf8ByteSize)
      (⟨filled_url, h2, body, false, none⟩, c1)

/-- Model of GitterAPI._make_request (gitter_api.py lines 143-182). The
transport response (status, headers, UTF-8-decoded body) is an explicit
parameter, as is the ambient clock. Returns the data returned to the
caller (or the raised exception) together with the final client state:
when decipher_response raises, the tuple assignment at line 175 never
runs, so the state keeps the pre-decremented snapshot and the cache is
untouched. -/
def make_request (c : GitterAPI) (method url : String) (data : RequestData)
    (status : Nat) (rheaders : List (String × String)) (rbody : String)
    (now : ℚ) : Except Exc Json × GitterAPI :=
  let pc := prepare c method url data
  let p := pc.1
  let c1 := pc.2
  if status == 304 && p.cachedBody.isSome then
    (Except.ok (p.cachedBody.getD Json.null), c1)
  else
    match decipher_response status rheaders rbody now with
    | Except.error e => (Except.error e, c1)
    | Except.ok (d, rl) =>
        let c2 : GitterAPI := { c1 with rate_limit := rl }
        let has_cache_details :=
          (lookupH rheaders "etag").isSome || (lookupH rheaders "last-modified").isSome
        if c2.cache.isSome && p.cacheable && has_cache_details then
          (Except.ok d,
           { c2 with cache := some (setA (c2.cache.getD []) p.filled_url
               (lookupH rheaders "etag", lookupH rheaders "last-modified", d)) })
        else (Except.ok d, c2)

/-- GitterAPI.getitem (gitter_api.py lines 246-250): a GET with b"". -/
def getitem (c : GitterAPI) (url : String) (status : Nat)
    (rheaders : List (String × String)) (rbody : String) (now : ℚ) :
    Except Exc Json × GitterAPI :=
  make_request c "GET" url RequestData.empty status rheaders rbody now

/-- GitterAPI.post (gitter_api.py lines 252-254). -/
def post (c : GitterAPI) (url : String) (data : Json) (status : Nat)
    (rheaders : List (String × String)) (rbody : String) (now : ℚ) :
    Except Exc Json × GitterAPI :=
  make_request c "POST" url (RequestData.payload data) status rheaders rbody now

/-- Whether a decipher outcome is a raised RateLimitExceeded. -/
def isRateLimitExceeded : Except Exc (Json × Option RateLimit) → Bool
  | Except.error (Exc.rateLimitExceeded _ _) => true
  | _ => false

/-- Whether a decipher outcome is a raised InvalidField. -/
def isInvalidField : Except Exc (Json × Option RateLimit) → Bool
  | Except.error (Exc.invalidField _ _) => true
  | _ => false

theorem getA_setA_self {α : Type} (m : List (String × α)) (k : String) (v : α) :
    getA (setA m k v) k = some v := by
  induction m with
  | nil => simp [getA, setA]
  | cons hd tl ih =>
      obtain ⟨k0, v0⟩ := hd
      by_cases h : k0 == k
      · simp [getA, setA, h]
      · simp only [setA, h, Bool.false_eq_true, if_false, getA, ih]

theorem prepare_snd (c : GitterAPI) (method url : String) (data : RequestData) :
    (prepare c method url data).2 = { c with rate_limit := preSend c.rate_limit } := by
  cases data with
  | empty =>
      simp only [prepare]
      split
      · split <;> rfl
      · rfl
  | payload j => rfl

theorem decipher_success (status : Nat) (headers : List (String × String))
    (body : String) (d : Json) (rlr : Option RateLimit) (now : ℚ)
    (hs : status = 200 ∨ status = 201 ∨ status = 204)
    (hb : json_loads body = some d)
    (hr : RateLimit.from_http headers = Except.ok rlr) :
    decipher_response status headers body now = Except.ok (d, rlr) := by
  rcases hs with h | h | h <;> subst h <;> simp [decipher_response, hb, hr]

theorem prepare_cachedBody_hit (c : GitterAPI) (m : List (String × CacheEntry))
    (url : String) (etag last_modified : Option String) (cb : Json)
    (hc : c.cache = some m)
    (hhit : getA m (format_url url) = some (etag, last_modified, cb)) :
    (prepare c "GET" url RequestData.empty).1.cachedBody = some cb := by
  simp [prepare, hc, hhit]

theorem prepare_fst_GET_cache (c : GitterAPI) (m : List (String × CacheEntry))
    (url : String) (hc : c.cache = some m) :
    (prepare c "GET" url RequestData.empty).1.cacheable = true ∧
    (prepare c "GET" url RequestData.empty).1.filled_url = format_url url := by
  simp only [prepare, hc]
  cases h : getA ((some m).getD []) (format_url url) with
  | none => simp
  | some entry =>
      obtain ⟨et, lm, cb⟩ := entry
      simp

theorem make_request_304_cached (c : GitterAPI) (m : List (String × CacheEntry))
    (url : String) (etag last_modified : Option String) (cb : Json)
    (rheaders : List (String × String)) (rbody : String) (now : ℚ)
    (hc : c.cache = some m)
    (hhit : getA m (format_url url) = some (etag, last_modified, cb)) :
    make_request c "GET" url RequestData.empty 304 rheaders rbody now =
      (Except.ok cb, { c with rate_limit := preSend c.rate_limit }) := by
  have hcb := prepare_cachedBody_hit c m url etag last_modified cb hc hhit
  simp only [make_request, hcb]
  simp [prepare_snd c "GET" url RequestData.empty]

theorem make_request_cacheable_success (c : GitterAPI)
    (m : List (String × CacheEntry)) (url : String) (status : Nat)
    (rheaders : List (String × String)) (rbody : String) (d : Json)
    (rlr : Option RateLimit) (now : ℚ) (e : String)
    (hc : c.cache = some m)
    (hs : status = 200 ∨ status = 201 ∨ status = 204)
    (hb : json_loads rbody = some d)
    (hr : RateLimit.from_http rheaders = Except.ok rlr)
    (he : lookupH rheaders "etag" = some e) :
    make_request c "GET" url RequestData.empty status rheaders rbody now =
      (Except.ok d,
       { c with rate_limit := rlr,
                cache := some (setA m (format_url url)
                  (some e, lookupH rheaders "last-modified", d)) }) := by
  have hd := decipher_success status rheaders rbody d rlr now hs hb hr
  have h304 : (status == 304) = false := by
    rcases hs with h | h | h <;> subst h <;> decide
  have hg := prepare_fst_GET_cache c m url hc
  simp only [make_request, h304, Bool.false_and, Bool.false_eq_true, if_false, hd,
    prepare_snd, hg.1, hg.2, he]
  simp [hc]

/-- Claim C1 (corrected), counterexample to the claim as stated: a 403
response whose headers show zero remaining, at a clock instant before the
reset (now = 0, reset epoch 1000 ms), raises a generic BadRequest and not
RateLimitExceeded — the reset time matters, contrary to the claim. -/
theorem c1_rate_limit_403_counterexample :
    decipher_response 403
        [("x-ratelimit-limit", "100"), ("x-ratelimit-remaining", "0"),
         ("x-ratelimit-reset", "1000")] "\x7b\x7d" 0 =
      Except.error (Exc.badRequest 403 none) ∧
    isRateLimitExceeded (decipher_response 403
        [("x-ratelimit-limit", "100"), ("x-ratelimit-remaining", "0"),
         ("x-ratelimit-reset", "1000")] "\x7b\x7d" 0) = false := by
  have hb : json_loads "\x7b\x7d" = some (Json.obj []) := rfl
  have hr : RateLimit.from_http
      [("x-ratelimit-limit", "100"), ("x-ratelimit-remaining", "0"),
       ("x-ratelimit-reset", "1000")] =
      Except.ok (some ⟨100, 0, 1000 / 1000⟩) := rfl
  have hnow : ¬ (0 : ℚ) > 1000 / 1000 := by norm_num
  have hst : isHTTPStatus 403 = true := by decide
  have h : decipher_response 403
      [("x-ratelimit-limit", "100"), ("x-ratelimit-remaining", "0"),
       ("x-ratelimit-reset", "1000")] "\x7b\x7d" 0 =
      Except.error (Exc.badRequest 403 none) := by
    simp [decipher_response, hb, hr, RateLimit.toBool, hnow, raiseHTTP, hst,
      pyGetMessage, getKey, Json.truthy]
  exact ⟨h, by rw [h]; rfl⟩

/-- Claim C1 (amended): for a 403 response whose headers parse to a
snapshot with remaining = 0, deciphering raises RateLimitExceeded carrying
that snapshot exactly when the current time is after the reset instant
(the truthiness test at gitter_api.py line 223 consults RateLimit.bool);
when the reset has not passed, a generic BadRequest is raised instead. -/
theorem c1_rate_limit_403_depends_on_reset (headers : List (String × String))
    (body : String) (data : Json) (rl : RateLimit) (now : ℚ)
    (hb : json_loads body = some data)
    (hr : RateLimit.from_http headers = Except.ok (some rl))
    (hrem : rl.remaining = 0) :
    (now > rl.reset_datetime →
      decipher_response 403 headers body now =
        Except.error (Exc.rateLimitExceeded rl (pyGetMessage data))) ∧
    (¬ now > rl.reset_datetime →
      decipher_response 403 headers body now =
        Except.error (Exc.badRequest 403
          (if (pyGetMessage data).truthy then some (pyGetMessage data) else none))) := by
  have hst : isHTTPStatus 403 = true := by decide
  constructor <;> intro hnow <;>
    simp [decipher_response, hb, hr, RateLimit.toBool, hrem, raiseHTTP, hst, hnow]

/-- Witness for C1: at reset epoch 1000 ms and now = 2 s the reset has
passed, so the 403 with zero remaining raises RateLimitExceeded carrying
the parsed snapshot (remaining = 0). -/
theorem c1_rate_limit_403_depends_on_reset_witness :
    json_loads "\x7b\x7d" = some (Json.obj []) ∧
    RateLimit.from_http
        [("x-ratelimit-limit", "100"), ("x-ratelimit-remaining", "0"),
         ("x-ratelimit-reset", "1000")] =
      Except.ok (some ⟨100, 0, 1000 / 1000⟩) ∧
    decipher_response 403
        [("x-ratelimit-limit", "100"), ("x-ratelimit-remaining", "0"),
         ("x-ratelimit-reset", "1000")] "\x7b\x7d" 2 =
      Except.error (Exc.rateLimitExceeded ⟨100, 0, 1000 / 1000⟩ Json.null) := by
  refine ⟨rfl, rfl, ?_⟩
  have h := (c1_rate_limit_403_depends_on_reset
      [("x-ratelimit-limit", "100"), ("x-ratelimit-remaining", "0"),
       ("x-ratelimit-reset", "1000")] "\x7b\x7d" (Json.obj [])
      ⟨100, 0, 1000 / 1000⟩ 2 rfl rfl rfl).1 (by norm_num)
  exact h

/-- Claim C2 (corrected), counterexample to the claim as stated: with all
three rate-limit headers present but the limit non-numeric, from_http does
not return None — int() raises ValueError, which is not caught (only
KeyError is, gitter_api.py line 105). -/
theorem c2_from_http_nonnumeric_counterexample :
    RateLimit.from_http
        [("x-ratelimit-limit", "abc"), ("x-ratelimit-remaining", "0"),
         ("x-ratelimit-reset", "0")] = Except.error Exc.valueError ∧
    (Except.error Exc.valueError : Except Exc (Option RateLimit)) ≠ Except.ok none :=
  ⟨rfl, fun h => Except.noConfusion h⟩

/-- Claim C2 (amended): from_http returns None when a header is absent
(provided the headers inspected before it, in the order limit, remaining,
reset, parsed as numbers), and raises ValueError when a header is present
with a non-numeric value (the earlier ones having parsed). -/
theorem c2_from_http_absent_none_nonnumeric_raises :
    (∀ h, lookupH h "x-ratelimit-limit" = none →
      RateLimit.from_http h = Except.ok none) ∧
    (∀ h v n, lookupH h "x-ratelimit-limit" = some v → pyInt v = some n →
      lookupH h "x-ratelimit-remaining" = none →
      RateLimit.from_http h = Except.ok none) ∧
    (∀ h v n w k, lookupH h "x-ratelimit-limit" = some v → pyInt v = some n →
      lookupH h "x-ratelimit-remaining" = some w → pyInt w = some k →
      lookupH h "x-ratelimit-reset" = none →
      RateLimit.from_http h = Except.ok none) ∧
    (∀ h v, lookupH h "x-ratelimit-limit" = some v → pyInt v = none →
      RateLimit.from_http h = Except.error Exc.valueError) ∧
    (∀ h v n w, lookupH h "x-ratelimit-limit" = some v → pyInt v = some n →
      lookupH h "x-ratelimit-remaining" = some w → pyInt w = none →
      RateLimit.from_http h = Except.error Exc.valueError) ∧
    (∀ h v n w k x, lookupH h "x-ratelimit-limit" = some v → pyInt v = some n →
      lookupH h "x-ratelimit-remaining" = some w → pyInt w = some k →
      lookupH h "x-ratelimit-reset" = some x → pyFloat x = none →
      RateLimit.from_http h = Except.error Exc.valueError) := by
  refine ⟨?_, ?_, ?_, ?_, ?_, ?_⟩ <;> intros <;>
    simp [RateLimit.from_http, *]

/-- Witness for C2: an empty header mapping yields None; a mapping whose
only rate-limit header has value "oops" raises ValueError. -/
theorem c2_from_http_absent_none_nonnumeric_raises_witness :
    RateLimit.from_http [] = Except.ok none ∧
    RateLimit.from_http [("x-ratelimit-limit", "oops")] =
      Except.error Exc.valueError :=
  ⟨c2_from_http_absent_none_nonnumeric_raises.1 [] rfl,
   c2_from_http_absent_none_nonnumeric_raises.2.2.2.1
     [("x-ratelimit-limit", "oops")] "oops" rfl rfl⟩

/-- Claim C3 (corrected), counterexample to the claim as stated: a 404
response whose headers carry a fresh snapshot (remaining 99) leaves the
stored snapshot at its speculatively pre-decremented value (remaining 4),
because the assignment at gitter_api.py line 175 never runs when
decipher_response raises. -/
theorem c3_error_response_keeps_snapshot_counterexample :
    (make_request ⟨"r", "t", some ⟨100, 5, 50⟩, none⟩ "GET" "/a"
        RequestData.empty 404
        [("x-ratelimit-limit", "60"), ("x-ratelimit-remaining", "99"),
         ("x-ratelimit-reset", "7000")] "\x7b\x7d" 0).2.rate_limit =
      some ⟨100, 4, 50⟩ ∧
    RateLimit.from_http
        [("x-ratelimit-limit", "60"), ("x-ratelimit-remaining", "99"),
         ("x-ratelimit-reset", "7000")] =
      Except.ok (some ⟨60, 99, 7000 / 1000⟩) ∧
    (⟨100, 4, 50⟩ : RateLimit) ≠ ⟨60, 99, 7000 / 1000⟩ ∧
    (make_request ⟨"r", "t", some ⟨100, 5, 50⟩, none⟩ "GET" "/a"
        RequestData.empty 404
        [("x-ratelimit-limit", "60"), ("x-ratelimit-remaining", "99"),
         ("x-ratelimit-reset", "7000")] "\x7b\x7d" 0).1 =
      Except.error (Exc.badRequest 404 none) :=
  ⟨rfl, rfl,
   by intro h; injection h with h1 h2 h3; exact absurd h2 (by decide),
   rfl⟩

/-- Claim C3 (amended): on a response that is not a cache-answered 304,
the stored snapshot is replaced by the one deciphered from the response
headers only when deciphering succeeds (status 200/201/204 with a JSON
body and parsable rate-limit headers); when deciphering raises, the
snapshot is left at its pre-request, speculatively decremented value. -/
theorem c3_snapshot_replaced_only_on_success (c : GitterAPI)
    (method url : String) (data : RequestData) (status : Nat)
    (rheaders : List (String × String)) (rbody : String) (now : ℚ)
    (hnc : ¬(status = 304 ∧
      (prepare c method url data).1.cachedBody.isSome = true)) :
    (∀ e, decipher_response status rheaders rbody now = Except.error e →
      (make_request c method url data status rheaders rbody now).2.rate_limit =
        preSend c.rate_limit) ∧
    (∀ d rl, decipher_response status rheaders rbody now = Except.ok (d, rl) →
      (make_request c method url data status rheaders rbody now).2.rate_limit =
        rl) := by
  have hcond : (status == 304 &&
      (prepare c method url data).1.cachedBody.isSome) = false := by
    by_cases h : status = 304
    · subst h
      cases hx : (prepare c method url data).1.cachedBody.isSome
      · simp [hx]
      · exact absurd ⟨rfl, hx⟩ hnc
    · have hb : (status == 304) = false := beq_eq_false_iff_ne.mpr h
      simp [hb]
  constructor
  · intro e he
    simp only [make_request, hcond, Bool.false_eq_true, if_false, he]
    simp [prepare_snd]
  · intro d rl hok
    simp only [make_request, hcond, Bool.false_eq_true, if_false, hok]
    split <;> rfl

/-- Witness for C3: a 404 with no rate-limit headers deciphered through a
POST leaves the stored snapshot at its pre-decremented value. -/
theorem c3_snapshot_replaced_only_on_success_witness :
    decipher_response 404 [] "\x7b\x7d" 0 =
      Except.error (Exc.badRequest 404 none) ∧
    (make_request ⟨"r", "t", some ⟨8, 3, 1⟩, none⟩ "POST" "/b"
        (RequestData.payload Json.null) 404 [] "\x7b\x7d" 0).2.rate_limit =
      preSend (some ⟨8, 3, 1⟩) := by
  refine ⟨rfl, ?_⟩
  exact (c3_snapshot_replaced_only_on_success ⟨"r", "t", some ⟨8, 3, 1⟩, none⟩
    "POST" "/b" (RequestData.payload Json.null) 404 [] "\x7b\x7d" 0
    (by intro hx; exact absurd hx.1 (by decide))).1 _ rfl

/-- Claim C4 (confirmed): a cacheable GET with a cache entry for the
resolved URL, answered 304 by the transport, returns the cached body (for
an arbitrary response body, so the response is never deciphered), leaves
the cache untouched, and performs no header-derived snapshot update — the
stored snapshot is exactly the speculatively pre-decremented one that
every request issues before the transport call. -/
theorem c4_not_modified_returns_cached_body (c : GitterAPI)
    (m : List (String × CacheEntry)) (url : String)
    (etag last_modified : Option String) (cb : Json)
    (rheaders : List (String × String)) (rbody : String) (now : ℚ)
    (hc : c.cache = some m)
    (hhit : getA m (format_url url) = some (etag, last_modified, cb)) :
    (make_request c "GET" url RequestData.empty 304 rheaders rbody now).1 =
      Except.ok cb ∧
    (make_request c "GET" url RequestData.empty 304 rheaders rbody now).2.cache =
      c.cache ∧
    (make_request c "GET" url RequestData.empty 304 rheaders rbody now).2.rate_limit =
      preSend c.rate_limit := by
  have h := make_request_304_cached c m url etag last_modified cb
    rheaders rbody now hc hhit
  rw [h]
  exact ⟨rfl, rfl, rfl⟩

/-- Witness for C4: the spec example, a cache entry (etag "abc", no
last-modified, body containing x = 1) answered 304, returns the cached
body with the cache entry unchanged. -/
theorem c4_not_modified_returns_cached_body_witness :
    (make_request ⟨"r", "t", some ⟨100, 5, 7⟩,
        some [("https://api.gitter.im/a",
          (some "abc", none, Json.obj [("x", Json.num 1)]))]⟩ "GET" "/a"
        RequestData.empty 304 [] "not json" 0).1 =
      Except.ok (Json.obj [("x", Json.num 1)]) ∧
    (make_request ⟨"r", "t", some ⟨100, 5, 7⟩,
        some [("https://api.gitter.im/a",
          (some "abc", none, Json.obj [("x", Json.num 1)]))]⟩ "GET" "/a"
        RequestData.empty 304 [] "not json" 0).2.cache =
      some [("https://api.gitter.im/a",
        (some "abc", none, Json.obj [("x", Json.num 1)]))] ∧
    (make_request ⟨"r", "t", some ⟨100, 5, 7⟩,
        some [("https://api.gitter.im/a",
          (some "abc", none, Json.obj [("x", Json.num 1)]))]⟩ "GET" "/a"
        RequestData.empty 304 [] "not json" 0).2.rate_limit =
      some ⟨100, 4, 7⟩ :=
  c4_not_modified_returns_cached_body
    ⟨"r", "t", some ⟨100, 5, 7⟩,
      some [("https://api.gitter.im/a",
        (some "abc", none, Json.obj [("x", Json.num 1)]))]⟩
    [("https://api.gitter.im/a", (some "abc", none, Json.obj [("x", Json.num 1)]))]
    "/a" (some "abc") none (Json.obj [("x", Json.num 1)]) [] "not json" 0 rfl rfl

/-- Claim C5 (confirmed): a cacheable GET whose successful response
carries an etag and a JSON body overwrites the cache entry for the
resolved URL with the new etag and body, and a subsequent 304 for the
same URL returns the new body. -/
theorem c5_cache_overwrite_then_304_roundtrip (c : GitterAPI)
    (m : List (String × CacheEntry)) (url : String) (status1 : Nat)
    (hdrs1 : List (String × String)) (body1 : String) (d1 : Json)
    (rlr : Option RateLimit) (e : String) (hdrs2 : List (String × String))
    (body2 : String) (now1 now2 : ℚ)
    (hc : c.cache = some m)
    (hs : status1 = 200 ∨ status1 = 201 ∨ status1 = 204)
    (hb : json_loads body1 = some d1)
    (hr : RateLimit.from_http hdrs1 = Except.ok rlr)
    (he : lookupH hdrs1 "etag" = some e) :
    make_request c "GET" url RequestData.empty status1 hdrs1 body1 now1 =
      (Except.ok d1,
       { c with rate_limit := rlr,
                cache := some (setA m (format_url url)
                  (some e, lookupH hdrs1 "last-modified", d1)) }) ∧
    (make_request
        { c with rate_limit := rlr,
                 cache := some (setA m (format_url url)
                   (some e, lookupH hdrs1 "last-modified", d1)) }
        "GET" url RequestData.empty 304 hdrs2 body2 now2).1 =
      Except.ok d1 := by
  constructor
  · exact make_request_cacheable_success c m url status1 hdrs1 body1 d1 rlr
      now1 e hc hs hb hr he
  · have h := make_request_304_cached
      { c with rate_limit := rlr,
               cache := some (setA m (format_url url)
                 (some e, lookupH hdrs1 "last-modified", d1)) }
      (setA m (format_url url) (some e, lookupH hdrs1 "last-modified", d1))
      url (some e) (lookupH hdrs1 "last-modified") d1 hdrs2 body2 now2 rfl
      (getA_setA_self m (format_url url)
        (some e, lookupH hdrs1 "last-modified", d1))
    rw [h]

/-- Witness for C5: a 200 carrying etag "v2" and body with x = 2 writes
the entry for the resolved URL, and a 304 answered next returns that new
body. -/
theorem c5_cache_overwrite_then_304_roundtrip_witness :
    make_request ⟨"r", "t", none, some []⟩ "GET" "/a" RequestData.empty 200
        [("etag", "v2")] "\x7b\"x\":2\x7d" 0 =
      (Except.ok (Json.obj [("x", Json.num 2)]),
       ⟨"r", "t", none,
        some [("https://api.gitter.im/a",
          (some "v2", none, Json.obj [("x", Json.num 2)]))]⟩) ∧
    (make_request ⟨"r", "t", none,
        some [("https://api.gitter.im/a",
          (some "v2", none, Json.obj [("x", Json.num 2)]))]⟩ "GET" "/a"
        RequestData.empty 304 [] "x" 0).1 =
      Except.ok (Json.obj [("x", Json.num 2)]) := by
  have h := c5_cache_overwrite_then_304_roundtrip ⟨"r", "t", none, some []⟩
    [] "/a" 200 [("etag", "v2")] "\x7b\"x\":2\x7d"
    (Json.obj [("x", Json.num 2)]) none "v2" [] "x" 0 0
    rfl (Or.inl rfl) rfl rfl rfl
  exact h

/-- Claim C6 (corrected), counterexample to the claim as stated: a 200
response whose body parses as JSON but whose limit header is non-numeric
does not return the body — RateLimit.from_http raises ValueError at
gitter_api.py line 210 before the success return. -/
theorem c6_success_nonnumeric_header_counterexample :
    (make_request ⟨"r", "t", none, none⟩ "GET" "/a" RequestData.empty 200
        [("x-ratelimit-limit", "abc")] "\x7b\x7d" 0).1 =
      Except.error Exc.valueError ∧
    (Except.error Exc.valueError : Except Exc Json) ≠
      Except.ok (Json.obj []) :=
  ⟨rfl, fun h => Except.noConfusion h⟩

/-- Claim C6 (amended): for a response with status 200, 201 or 204 whose
body parses as JSON and whose rate-limit headers parse without raising
(from_http returns, possibly with no snapshot), the client returns the
decoded body unchanged and stores the from_http result as its snapshot. -/
theorem c6_success_returns_body_updates_snapshot (c : GitterAPI)
    (method url : String) (data : RequestData) (status : Nat)
    (rheaders : List (String × String)) (rbody : String) (d : Json)
    (rlr : Option RateLimit) (now : ℚ)
    (hs : status = 200 ∨ status = 201 ∨ status = 204)
    (hb : json_loads rbody = some d)
    (hr : RateLimit.from_http rheaders = Except.ok rlr) :
    (make_request c method url data status rheaders rbody now).1 =
      Except.ok d ∧
    (make_request c method url data status rheaders rbody now).2.rate_limit =
      rlr := by
  have hd := decipher_success status rheaders rbody d rlr now hs hb hr
  have h304 : (status == 304) = false := by
    rcases hs with h | h | h <;> subst h <;> decide
  simp only [make_request, h304, Bool.false_and, Bool.false_eq_true, if_false, hd]
  refine ⟨?_, ?_⟩ <;> split <;> rfl

/-- Witness for C6: a 201 whose headers carry limit 10, remaining 3,
reset 5000 ms returns the decoded body and stores the parsed snapshot. -/
theorem c6_success_returns_body_updates_snapshot_witness :
    (make_request ⟨"r", "t", some ⟨9, 9, 9⟩, none⟩ "POST" "/c"
        (RequestData.payload Json.null) 201
        [("x-ratelimit-limit", "10"), ("x-ratelimit-remaining", "3"),
         ("x-ratelimit-reset", "5000")] "\x7b\"ok\":true\x7d" 0).1 =
      Except.ok (Json.obj [("ok", Json.bool true)]) ∧
    (make_request ⟨"r", "t", some ⟨9, 9, 9⟩, none⟩ "POST" "/c"
        (RequestData.payload Json.null) 201
        [("x-ratelimit-limit", "10"), ("x-ratelimit-remaining", "3"),
         ("x-ratelimit-reset", "5000")] "\x7b\"ok\":true\x7d" 0).2.rate_limit =
      some ⟨10, 3, 5000 / 1000⟩ := by
  have h := c6_success_returns_body_updates_snapshot
    ⟨"r", "t", some ⟨9, 9, 9⟩, none⟩ "POST" "/c" (RequestData.payload Json.null)
    201
    [("x-ratelimit-limit", "10"), ("x-ratelimit-remaining", "3"),
     ("x-ratelimit-reset", "5000")] "\x7b\"ok\":true\x7d"
    (Json.obj [("ok", Json.bool true)]) (some ⟨10, 3, 5000 / 1000⟩) 0
    (Or.inr (Or.inl rfl)) rfl rfl
  exact h

/-- Claim C7 (corrected), counterexample to the claim as stated: a 422
whose body is an empty JSON object raises KeyError (the uncaught
data["message"] at gitter_api.py line 231), not InvalidField. -/
theorem c7_invalid_field_422_counterexample :
    decipher_response 422 [] "\x7b\x7d" 0 = Except.error Exc.keyError ∧
    isInvalidField (decipher_response 422 [] "\x7b\x7d" 0) = false :=
  ⟨rfl, rfl⟩

/-- Claim C7 (amended): for a 422 response whose body is an object with a
string message and a non-empty errors list whose items each carry a field
name, deciphering raises InvalidField carrying the raw errors list, with
the message equal to the body message followed by " for " and the
comma-joined, repr-quoted field names. -/
theorem c7_invalid_field_422_message_join (headers : List (String × String))
    (body : String) (fs : List (String × Json)) (ms : String)
    (es : List Json) (s : String) (now : ℚ)
    (hb : json_loads body = some (Json.obj fs))
    (hmsg : getKey fs "message" = some (Json.str ms))
    (herr : getKey fs "errors" = some (Json.arr es))
    (hne : es.isEmpty = false)
    (hj : joinFields es = Except.ok s) :
    decipher_response 422 headers body now =
      Except.error (Exc.invalidField (Json.arr es)
        (Json.str (ms ++ " for " ++ s))) := by
  simp [decipher_response, hb, pyGetMessage, hmsg, herr, hj, Json.truthy,
    hne, Json.pyStr]

/-- Witness for C7: the spec example body raises InvalidField whose errors
list has length 1 and whose message is the body message with the quoted
field name appended. -/
theorem c7_invalid_field_422_message_join_witness :
    [Json.obj [("field", Json.str "name")]].length = 1 ∧
    decipher_response 422 []
        "\x7b\"message\":\"Validation Failed\",\"errors\":[\x7b\"field\":\"name\"\x7d]\x7d" 0 =
      Except.error (Exc.invalidField
        (Json.arr [Json.obj [("field", Json.str "name")]])
        (Json.str "Validation Failed for \x27name\x27")) := by
  refine ⟨rfl, ?_⟩
  have h := c7_invalid_field_422_message_join []
    "\x7b\"message\":\"Validation Failed\",\"errors\":[\x7b\"field\":\"name\"\x7d]\x7d"
    [("message", Json.str "Validation Failed"),
     ("errors", Json.arr [Json.obj [("field", Json.str "name")]])]
    "Validation Failed" [Json.obj [("field", Json.str "name")]]
    "\x27name\x27" 0 rfl rfl rfl rfl rfl
  exact h

/-- Claim C8 (confirmed): the has-capacity predicate RateLimit.bool is
true exactly when requests remain or the current time is after the reset
instant. -/
theorem c8_has_capacity_iff (rl : RateLimit) (now : ℚ) :
    rl.toBool now = true ↔ (0 < rl.remaining ∨ rl.reset_datetime < now) := by
  simp only [RateLimit.toBool]
  split_ifs with h
  · simp [h]
  · simp [h, decide_eq_true_eq, gt_iff_lt]

/-- Claim C9 (confirmed): the client state observed by the transport call
(the second component of prepare, which make_request passes onward) holds
the speculatively pre-decremented snapshot: no snapshot means no
decrement, and a snapshot with remaining 5 is decremented to 4. -/
theorem c9_speculative_pre_decrement (c : GitterAPI) (method url : String)
    (data : RequestData) :
    (prepare c method url data).2.rate_limit = preSend c.rate_limit ∧
    (c.rate_limit = none → (prepare c method url data).2.rate_limit = none) ∧
    (∀ l rst, c.rate_limit = some ⟨l, 5, rst⟩ →
      (prepare c method url data).2.rate_limit = some ⟨l, 4, rst⟩) := by
  refine ⟨?_, ?_, ?_⟩
  · rw [prepare_snd]
  · intro h
    rw [prepare_snd]
    simp [preSend, h]
  · intro l rst h
    rw [prepare_snd]
    simp [preSend, h]

/-- Witness for C9: with a stored snapshot of remaining 5 the transport
sees remaining 4; with no stored snapshot the transport sees none. -/
theorem c9_speculative_pre_decrement_witness :
    (prepare ⟨"r", "t", some ⟨100, 5, 7⟩, none⟩ "POST" "/x"
        (RequestData.payload Json.null)).2.rate_limit = some ⟨100, 4, 7⟩ ∧
    (prepare ⟨"r", "t", none, none⟩ "GET" "/x"
        RequestData.empty).2.rate_limit = none :=
  ⟨(c9_speculative_pre_decrement ⟨"r", "t", some ⟨100, 5, 7⟩, none⟩ "POST"
      "/x" (RequestData.payload Json.null)).2.2 100 7 rfl,
   (c9_speculative_pre_decrement ⟨"r", "t", none, none⟩ "GET" "/x"
      RequestData.empty).2.1 rfl⟩

/-- Claim C10 (confirmed): a body that does not parse as JSON makes
deciphering raise the JSON decode failure for every status code — the
parse at gitter_api.py line 208 precedes all status classification, so
even a success status raises instead of returning. -/
theorem c10_unparsable_body_raises (status : Nat)
    (headers : List (String × String)) (body : String) (now : ℚ)
    (h : json_loads body = none) :
    decipher_response status headers body now =
      Except.error Exc.jsonDecodeError := by
  simp [decipher_response, h]

/-- Witness for C10: the empty body of a 204 No Content does not parse as
JSON, so deciphering it raises the decode failure rather than returning. -/
theorem c10_unparsable_body_raises_witness :
    json_loads "" = none ∧
    decipher_response 204 [] "" 0 = Except.error Exc.jsonDecodeError :=
  ⟨rfl, c10_unparsable_body_raises 204 [] "" 0 rfl⟩
